import Mathlib

/-!
Verification of the GitHub API client of this repository
(`src/lib/github.ts`, extended variant with retry/pagination).

The TypeScript source is shallowly embedded: asynchronous HTTP calls are
modelled by a `script` mapping each attempt number to the outcome the
`fetch` call would produce (a response, or a rejected promise / TypeError);
JavaScript numbers that can be `NaN` on the integer code paths are
modelled by `Option Int` (`none` = NaN); host primitives that the client
only calls opaquely (`JSON.parse` for error bodies, `Date`'s locale
rendering, JSON decoding of success bodies) are parameters of the model.
-/

namespace GH

/-- JavaScript number restricted to the integer-valued code paths of the
client; `none` models `NaN`. -/
abbrev JSNum := Option Int

/-- JavaScript truthiness of a nullable string: `null`/`undefined` and the
empty string are falsy, every other string is truthy. -/
def truthy (s : Option String) : Bool :=
  match s with
  | none => false
  | some v => v ≠ ""

/-- Value of a digit list read in base 10. -/
def digitsToNat (cs : List Char) : Nat :=
  cs.foldl (fun a c => a * 10 + (c.toNat - 48)) 0

/-- JavaScript `parseInt(s, 10)`: skip leading whitespace, optional sign,
then the longest prefix of decimal digits; `NaN` (`none`) if there is no
digit. -/
def parseIntJS (s : String) : JSNum :=
  let cs := s.toList.dropWhile Char.isWhitespace
  let signAndRest : Int × List Char :=
    match cs with
    | '-' :: rest => (-1, rest)
    | '+' :: rest => (1, rest)
    | _ => (1, cs)
  let ds := signAndRest.2.takeWhile Char.isDigit
  if ds.isEmpty then none else some (signAndRest.1 * digitsToNat ds)

/-- `Math.max(0, x)` on a possibly-NaN number (`Math.max(0, NaN)` is NaN). -/
def jsMax0 (x : JSNum) : JSNum :=
  x.map (fun v => max 0 v)

/-- Case-insensitive comparison of header names (character-wise
lowercasing, the relevant names being ASCII). -/
def headerNameMatches (a b : String) : Bool :=
  a.toList.map Char.toLower = b.toList.map Char.toLower

/-- `Headers.get`: case-insensitive lookup, `null` when absent. -/
def headersGet (hs : List (String × String)) (name : String) : Option String :=
  (hs.find? (fun p => headerNameMatches p.1 name)).map (fun p => p.2)

/-- Whether `pre` is a prefix of `l`. -/
def isPrefixCL : List Char → List Char → Bool
  | [], _ => true
  | _ :: _, [] => false
  | a :: as, b :: bs => if a = b then isPrefixCL as bs else false

/-- Whether `needle` occurs as a contiguous substring of the second list. -/
def containsSub (needle : List Char) : List Char → Bool
  | [] => needle.isEmpty
  | c :: rest => isPrefixCL needle (c :: rest) || containsSub needle rest

/-- `s.includes('fetch')` (substring test used on TypeError messages). -/
def includesFetch (s : String) : Bool :=
  containsSub "fetch".toList s.toList

/-- JavaScript `s.split(sep)` for a one-character separator: splits at
every occurrence, keeping empty pieces, and yields `[""]` on `""`. -/
def splitOnChar (sep : Char) : List Char → List (List Char)
  | [] => [[]]
  | c :: rest =>
    let r := splitOnChar sep rest
    if c = sep then [] :: r
    else
      match r with
      | h :: t => (c :: h) :: t
      | [] => [[c]]

/-- An HTTP response as the client observes it: status, status text,
headers and the body text (`response.text()`). -/
structure HttpResponse where
  status : Nat
  statusText : String
  headers : List (String × String)
  body : String
deriving Repr, DecidableEq

/-- Outcome of one `fetch(url, { headers })` call: a response, or a
rejection with a `TypeError` (how the host signals network failure). -/
inductive FetchOutcome where
  | resp (r : HttpResponse)
  | throwTypeError (message : String)
deriving Repr, DecidableEq

/-- The JavaScript error values thrown by the client:
`GitHubAPIError(message, status, isRateLimited, retryAfter?)`,
`NetworkError(message, originalError?)` (the original error kept as its
message), the host's `TypeError`, and a plain `Error`. -/
inductive JsError where
  | gitHubAPIError (message : String) (status : Nat) (isRateLimited : Bool)
      (retryAfter : Option JSNum)
  | networkError (message : String) (original : Option String)
  | typeError (message : String)
  | genericError (message : String)
deriving Repr, DecidableEq

/-- Host primitives the client calls but does not implement:
`Date.now()` (the clock is frozen across one `fetchWithRetry` call),
`JSON.parse(body).message` (`some m` exactly when the body parses as JSON
whose `message` field is truthy, yielding `m`), and
`Date.toLocaleTimeString` on a (possibly NaN) millisecond timestamp. -/
structure Env where
  nowMs : Int
  jsonMessage : String → Option String
  localeTime : JSNum → String

/-- `RateLimitInfo { limit, remaining, reset, used }`; `reset` is the
`Date` held as its millisecond timestamp. -/
structure RateLimitInfo where
  limit : JSNum
  remaining : JSNum
  reset : JSNum
  used : JSNum
deriving Repr, DecidableEq

/-- `updateRateLimitInfo(response)`: reads the four `X-RateLimit-*`
headers; if `limit && remaining && reset` (JS truthiness) it overwrites
the stored snapshot and notifies the subscribers once with it, otherwise
it does nothing.  Returned are the new stored snapshot and the list of
notification payloads published (one entry per `notifyRateLimitChange`
call; each call reaches every subscriber). -/
def updateRateLimitInfo (rl : Option RateLimitInfo) (hs : List (String × String)) :
    Option RateLimitInfo × List RateLimitInfo :=
  let limit := headersGet hs "X-RateLimit-Limit"
  let remaining := headersGet hs "X-RateLimit-Remaining"
  let reset := headersGet hs "X-RateLimit-Reset"
  let used := headersGet hs "X-RateLimit-Used"
  if truthy limit && truthy remaining && truthy reset then
    let info : RateLimitInfo :=
      { limit := parseIntJS (limit.getD "")
        remaining := parseIntJS (remaining.getD "")
        reset := (parseIntJS (reset.getD "")).map (fun v => v * 1000)
        used := if truthy used then parseIntJS (used.getD "") else some 0 }
    (some info, [info])
  else
    (rl, [])

/-- `MAX_RETRIES`. -/
def MAX_RETRIES : Nat := 3

/-- `INITIAL_RETRY_DELAY` (milliseconds). -/
def INITIAL_RETRY_DELAY : Int := 1000

/-- The `resetDate` computed in the 403 branch of `fetchWithRetry`:
`resetTime ? new Date(parseInt(resetTime, 10) * 1000) : new Date()`. -/
def resetDateOf (env : Env) (hs : List (String × String)) : JSNum :=
  let resetTime := headersGet hs "X-RateLimit-Reset"
  if truthy resetTime then (parseIntJS (resetTime.getD "")).map (fun v => v * 1000)
  else some env.nowMs

/-- The `waitTime` computed in the 429 branch of `fetchWithRetry`:
`retryAfter ? parseInt(retryAfter, 10) * 1000 : delay * Math.pow(2, attempt)`. -/
def retryWaitTime (hs : List (String × String)) (delay : Int) (attempt : Nat) : JSNum :=
  let retryAfter := headersGet hs "Retry-After"
  if truthy retryAfter then (parseIntJS (retryAfter.getD "")).map (fun v => v * 1000)
  else some (delay * 2 ^ attempt)

/-- What one pass through the `try` block of `fetchWithRetry` does with a
response, before the `catch`. -/
inductive TryOutcome where
  | ret (r : HttpResponse)
  | thrown (e : JsError)
  | sleepContinue (ms : JSNum)
deriving Repr, DecidableEq

/-- The body of the `try` block of `fetchWithRetry` after the fetch and
the rate-limit bookkeeping: the 403-with-remaining-0 throw, the 429
sleep-or-throw, the 5xx retry, the generic non-2xx throw, and the
successful return, in source order. -/
def tryBody (env : Env) (r : HttpResponse) (attempt retries : Nat) (delay : Int) :
    TryOutcome :=
  if r.status = 403 ∧ headersGet r.headers "X-RateLimit-Remaining" = some "0" then
    let resetDate := resetDateOf env r.headers
    let waitTime := jsMax0 (resetDate.map (fun t => t - env.nowMs))
    .thrown (.gitHubAPIError
      ("GitHub API rate limit exceeded. Resets at " ++ env.localeTime resetDate)
      403 true (some waitTime))
  else if r.status = 429 then
    let waitTime := retryWaitTime r.headers delay attempt
    if attempt < retries then .sleepContinue waitTime
    else .thrown (.gitHubAPIError "Too many requests. Please wait before trying again."
      429 true (some waitTime))
  else if r.status ≥ 500 ∧ attempt < retries then
    .sleepContinue (some (delay * 2 ^ attempt))
  else if ¬ (200 ≤ r.status ∧ r.status < 300) then
    let errorMessage := (env.jsonMessage r.body).getD
      ("GitHub API error: " ++ toString r.status ++ " " ++ r.statusText)
    .thrown (.gitHubAPIError errorMessage r.status false none)
  else
    .ret r

/-- What the `catch` block of `fetchWithRetry` decides for a caught error. -/
inductive CatchAction where
  | rethrow (e : JsError)
  | sleepRetry (ms : JSNum)
  | fallthrough
deriving Repr, DecidableEq

/-- The `catch` block of `fetchWithRetry` (with `lastError` recorded by
the caller): rethrow non-rate-limited 4xx API errors immediately; retry
network `TypeError`s with backoff, wrapping them as `NetworkError` when
attempts are exhausted; otherwise rethrow `lastError` on the final attempt
and fall through to the next loop iteration before that. -/
def catchBody (e : JsError) (attempt retries : Nat) (delay : Int) : CatchAction :=
  match e with
  | .gitHubAPIError _ st irl _ =>
    if 400 ≤ st ∧ st < 500 ∧ irl = false then .rethrow e
    else if attempt = retries then .rethrow e
    else .fallthrough
  | .typeError msg =>
    if includesFetch msg then
      if attempt < retries then .sleepRetry (some (delay * 2 ^ attempt))
      else .rethrow (.networkError "Network error. Please check your connection." (some msg))
    else if attempt = retries then .rethrow e
    else .fallthrough
  | e' =>
    if attempt = retries then .rethrow e' else .fallthrough

/-- Observable trace of one `fetchWithRetry` call: number of `fetch`
calls performed, the `sleep` durations awaited in order, the stored
rate-limit snapshot, and every rate-limit notification published. -/
structure FetchLog where
  attempts : Nat
  sleeps : List JSNum
  rl : Option RateLimitInfo
  notifs : List RateLimitInfo
deriving Repr, DecidableEq

/-- The `for (let attempt = 0; attempt <= retries; attempt++)` loop of
`fetchWithRetry`.  `fuel` is the number of loop iterations still allowed
(`retries + 1 - attempt` at the top-level call); running out of fuel is
the (unreachable) fall-out of the loop,
`throw lastError || new Error('Unknown error occurred')`. -/
def fetchGo (env : Env) (script : Nat → FetchOutcome) (retries : Nat) (delay : Int) :
    Nat → Nat → Option JsError → FetchLog → Except JsError HttpResponse × FetchLog
  | 0, _, lastError, log =>
    (.error (lastError.getD (.genericError "Unknown error occurred")), log)
  | fuel + 1, attempt, lastError, log =>
    match script attempt with
    | .throwTypeError msg =>
      let log1 : FetchLog := { log with attempts := log.attempts + 1 }
      let e := JsError.typeError msg
      match catchBody e attempt retries delay with
      | .rethrow e2 => (.error e2, log1)
      | .sleepRetry ms =>
        fetchGo env script retries delay fuel (attempt + 1) (some e)
          { log1 with sleeps := log1.sleeps ++ [ms] }
      | .fallthrough =>
        fetchGo env script retries delay fuel (attempt + 1) (some e) log1
    | .resp r =>
      let upd := updateRateLimitInfo log.rl r.headers
      let log1 : FetchLog :=
        { log with attempts := log.attempts + 1, rl := upd.1, notifs := log.notifs ++ upd.2 }
      match tryBody env r attempt retries delay with
      | .ret r2 => (.ok r2, log1)
      | .sleepContinue ms =>
        fetchGo env script retries delay fuel (attempt + 1) lastError
          { log1 with sleeps := log1.sleeps ++ [ms] }
      | .thrown e =>
        match catchBody e attempt retries delay with
        | .rethrow e2 => (.error e2, log1)
        | .sleepRetry ms =>
          fetchGo env script retries delay fuel (attempt + 1) (some e)
            { log1 with sleeps := log1.sleeps ++ [ms] }
        | .fallthrough =>
          fetchGo env script retries delay fuel (attempt + 1) (some e) log1

/-- `fetchWithRetry(url, retries = MAX_RETRIES, delay = INITIAL_RETRY_DELAY)`,
with the fetches of the successive attempts supplied by `script`. -/
def fetchWithRetry (env : Env) (script : Nat → FetchOutcome)
    (retries : Nat := MAX_RETRIES) (delay : Int := INITIAL_RETRY_DELAY) :
    Except JsError HttpResponse × FetchLog :=
  fetchGo env script retries delay (retries + 1) 0 none
    { attempts := 0, sleeps := [], rl := none, notifs := [] }

/-- The wait durations `[w attempt, w (attempt + 1), ...]` of the given
length, used to describe the sleeps a run of retrying loop iterations
performs. -/
def backoffSleeps (w : Nat → JSNum) : Nat → Nat → List JSNum
  | _, 0 => []
  | attempt, f + 1 => w attempt :: backoffSleeps w (attempt + 1) f

/-- The record built by `parseLinkHeader`: `{ next?, prev?, last? }`. -/
structure LinkRels where
  next : Option String := none
  prev : Option String := none
  last : Option String := none
deriving Repr, DecidableEq

/-- JavaScript `\s` on the characters occurring in `Link` headers. -/
def jsSpace (c : Char) : Bool :=
  c = ' ' ∨ c = '\t' ∨ c = '\n' ∨ c = '\r'

/-- Attempt to match the regex `/<([^>]+)>;\s*rel="([^"]+)"/` at the very
start of the input, returning the two captures `(url, rel)`.  Each
quantified piece is followed by a literal the repeated class excludes, so
greedy matching is deterministic (no backtracking is possible). -/
def matchLinkAt (cs : List Char) : Option (String × String) :=
  match cs with
  | '<' :: rest =>
    let url := rest.takeWhile (fun c => c ≠ '>')
    if url.isEmpty then none
    else
      match rest.drop url.length with
      | '>' :: ';' :: rest2 =>
        let rest3 := rest2.dropWhile jsSpace
        match rest3 with
        | 'r' :: 'e' :: 'l' :: '=' :: '"' :: rest4 =>
          let rel := rest4.takeWhile (fun c => c ≠ '"')
          if rel.isEmpty then none
          else
            match rest4.drop rel.length with
            | '"' :: _ => some (url.asString, rel.asString)
            | _ => none
        | _ => none
      | _ => none
  | _ => none

/-- `part.match(/<([^>]+)>;\s*rel="([^"]+)"/)`: the first position where
the pattern matches, scanning left to right. -/
def matchLinkPart : List Char → Option (String × String)
  | [] => none
  | c :: rest =>
    match matchLinkAt (c :: rest) with
    | some m => some m
    | none => matchLinkPart rest

/-- The body of the `for (const part of parts)` loop of `parseLinkHeader`:
store the part's first regex match under its relation when that relation
is `next`, `prev` or `last`. -/
def linkStep (links : LinkRels) (part : List Char) : LinkRels :=
  match matchLinkPart part with
  | some (url, rel) =>
    if rel = "next" then { links with next := some url }
    else if rel = "prev" then { links with prev := some url }
    else if rel = "last" then { links with last := some url }
    else links
  | none => links

/-- `parseLinkHeader(linkHeader)`: falsy header gives `{}`; otherwise the
header is split on `','` and every part whose first regex match has rel
`next`, `prev` or `last` stores its URL under that relation. -/
def parseLinkHeader (linkHeader : Option String) : LinkRels :=
  if truthy linkHeader = false then {}
  else (splitOnChar ',' (linkHeader.getD "").toList).foldl linkStep {}

/-- Whether a part's first regex match names the relation `rel`. -/
def partHasRel (rel : String) (part : List Char) : Bool :=
  match matchLinkPart part with
  | some m => m.2 = rel
  | none => false

/-- Whether a `Link` header value contains a relation named `rel`, read
exactly as the client reads it: some comma-separated part has a first
regex match whose rel capture is `rel`. -/
def linkContainsRel (linkHeader : Option String) (rel : String) : Bool :=
  match linkHeader with
  | none => false
  | some s => (splitOnChar ',' s.toList).any (partHasRel rel)

/-- `PaginationInfo` as built by the paginated accessors. -/
structure PaginationInfo where
  page : Nat
  perPage : Nat
  totalCount : Option Nat := none
  hasNextPage : Bool
  hasPrevPage : Bool
deriving Repr, DecidableEq

/-- `PaginatedResponse<T>`. -/
structure PaginatedResponse (α : Type) where
  data : List α
  pagination : PaginationInfo
deriving Repr, DecidableEq

/-- `getCommitsPaginated(owner, repo, page = 1, perPage = 20)`: one
`fetchWithRetry`, the JSON body decoded by the host (`decode`), the
`Link` header parsed, and the pagination derived as
`hasNextPage: !!links.next, hasPrevPage: page > 1`. -/
def getCommitsPaginated {α : Type} (env : Env) (script : Nat → FetchOutcome)
    (decode : String → List α) (page : Nat := 1) (perPage : Nat := 20) :
    Except JsError (PaginatedResponse α) × FetchLog :=
  match fetchWithRetry env script with
  | (.error e, log) => (.error e, log)
  | (.ok r, log) =>
    let links := parseLinkHeader (headersGet r.headers "Link")
    (.ok { data := decode r.body
           pagination :=
             { page := page, perPage := perPage, totalCount := none
               hasNextPage := links.next.isSome
               hasPrevPage := decide (page > 1) } }, log)

/-- `getContributors(owner, repo)`: one `fetchWithRetry`; a 202 response
(stats still being computed upstream) yields the empty list without
decoding the body, any other success decodes the JSON body. -/
def getContributors {α : Type} (env : Env) (script : Nat → FetchOutcome)
    (decode : String → List α) : Except JsError (List α) × FetchLog :=
  match fetchWithRetry env script with
  | (.error e, log) => (.error e, log)
  | (.ok r, log) =>
    if r.status = 202 then (.ok [], log) else (.ok (decode r.body), log)

/-- `getRecentCommitsWithFiles(owner, repo, limit = 10)` after the initial
`getCommits` call: `commits` is the list that call returned and
`fetchFiles` abstracts `getCommitFiles(owner, repo, commit.sha)` (which
may throw).  The loop walks `commits.slice(0, 5)`, pairing each commit
with its files, or with `[]` when the file fetch throws. -/
def getRecentCommitsWithFiles {α β : Type} (commits : List α)
    (fetchFiles : α → Except JsError (List β)) : List (α × List β) :=
  (commits.take 5).foldl
    (fun acc commit =>
      match fetchFiles commit with
      | .ok files => acc ++ [(commit, files)]
      | .error _ => acc ++ [(commit, [])])
    []

/-! Backtracking matcher for the `parseRepoInput` regex
`/^(?:https?:\/\/github\.com\/)?([^\/]+)\/([^\/]+?)(?:\.git)?(?:\/.*)?$/`,
built from continuation-passing combinators with standard regex
backtracking order: greedy pieces offer the longest candidate first, lazy
pieces the shortest, optional groups try the present branch first. -/

/-- Match a literal character sequence, then continue. -/
def litM {α : Type} (lit : List Char) (input : List Char)
    (k : List Char → Option α) : Option α :=
  match lit, input with
  | [], rest => k rest
  | c :: ls, d :: rest => if c = d then litM ls rest k else none
  | _ :: _, [] => none

/-- Greedy `p*` capturing what it consumed: longest alternative first,
backtracking to shorter ones. -/
def starGreedyCap {α : Type} (p : Char → Bool) :
    List Char → (List Char → List Char → Option α) → Option α
  | [], k => k [] []
  | c :: rest, k =>
    if p c then
      match starGreedyCap p rest (fun cap rem => k (c :: cap) rem) with
      | some r => some r
      | none => k [] (c :: rest)
    else k [] (c :: rest)

/-- Greedy `p+` capturing what it consumed. -/
def plusGreedyCap {α : Type} (p : Char → Bool) (input : List Char)
    (k : List Char → List Char → Option α) : Option α :=
  match input with
  | [] => none
  | c :: rest =>
    if p c then starGreedyCap p rest (fun cap rem => k (c :: cap) rem) else none

/-- Lazy `p*?` capturing what it consumed: shortest alternative first. -/
def starLazyCap {α : Type} (p : Char → Bool) :
    List Char → (List Char → List Char → Option α) → Option α
  | [], k => k [] []
  | c :: rest, k =>
    match k [] (c :: rest) with
    | some r => some r
    | none =>
      if p c then starLazyCap p rest (fun cap rem => k (c :: cap) rem) else none

/-- Lazy `p+?` capturing what it consumed. -/
def plusLazyCap {α : Type} (p : Char → Bool) (input : List Char)
    (k : List Char → List Char → Option α) : Option α :=
  match input with
  | [] => none
  | c :: rest =>
    if p c then starLazyCap p rest (fun cap rem => k (c :: cap) rem) else none

/-- Greedy optional `(?:m)?`: try the piece, fall back to skipping it. -/
def optM {α : Type} (m : List Char → (List Char → Option α) → Option α)
    (input : List Char) (k : List Char → Option α) : Option α :=
  match m input k with
  | some r => some r
  | none => k input

/-- The optional URL prefix `(?:https?:\/\/github\.com\/)?`. -/
def urlPrefixM {α : Type} (input : List Char) (k : List Char → Option α) : Option α :=
  litM "http".toList input (fun r1 =>
    optM (fun i k2 => litM ['s'] i k2) r1 (fun r2 =>
      litM "://github.com/".toList r2 k))

/-- JavaScript `.` in a regex: any character except a line terminator. -/
def dotJS (c : Char) : Bool :=
  ¬(c = '\n' ∨ c = '\r' ∨ c = Char.ofNat 0x2028 ∨ c = Char.ofNat 0x2029)

/-- The tail `(?:\.git)?(?:\/.*)?$` after the repo capture. -/
def repoTailM (owner repo : List Char) (rest : List Char) : Option (String × String) :=
  optM (fun i k => litM ".git".toList i k) rest (fun r4 =>
    optM (fun i k =>
        litM ['/'] i (fun r =>
          starGreedyCap dotJS r (fun _ rem => k rem)))
      r4 (fun r5 =>
        if r5.isEmpty then some (owner.asString, repo.asString) else none))

/-- The whole anchored pattern, applied to the trimmed input. -/
def matchRepoRegex (input : List Char) : Option (String × String) :=
  optM urlPrefixM input (fun rest =>
    plusGreedyCap (fun c => c ≠ '/') rest (fun owner rest1 =>
      litM ['/'] rest1 (fun rest2 =>
        plusLazyCap (fun c => c ≠ '/') rest2 (fun repo rest3 =>
          repoTailM owner repo rest3))))

/-- JavaScript `input.trim()`: strip leading and trailing whitespace. -/
def trimJS (cs : List Char) : List Char :=
  ((cs.dropWhile Char.isWhitespace).reverse.dropWhile Char.isWhitespace).reverse

/-- `parseRepoInput(input)`: trim, run the regex, return the two captures
as `{ owner, repo }` or `null` when there is no match. -/
def parseRepoInput (input : String) : Option (String × String) :=
  matchRepoRegex (trimJS input.toList)

/-- `formatTimeAgo(dateString)` with the `Date` parsing and the locale
date rendering abstracted: `dateMs` is the parsed timestamp of the
argument, `nowMs` is `Date.now()`, and `localeDate` is
`date.toLocaleDateString()`. -/
def formatTimeAgo (localeDate : Int → String) (nowMs dateMs : Int) : String :=
  let diffInSeconds := Int.fdiv (nowMs - dateMs) 1000
  if diffInSeconds < 60 then "just now"
  else if diffInSeconds < 3600 then toString (Int.fdiv diffInSeconds 60) ++ "m ago"
  else if diffInSeconds < 86400 then toString (Int.fdiv diffInSeconds 3600) ++ "h ago"
  else if diffInSeconds < 2592000 then toString (Int.fdiv diffInSeconds 86400) ++ "d ago"
  else localeDate dateMs

/-- `getStatusColor(status, conclusion?)`; the `switch` on `conclusion`
is an equality chain with a `default` branch, and `conclusion` may be
absent or `null` (both `none` here). -/
def getStatusColor (status : String) (conclusion : Option String := none) : String :=
  if status = "completed" then
    if conclusion = some "success" then "text-chart-success"
    else if conclusion = some "failure" then "text-chart-danger"
    else if conclusion = some "cancelled" then "text-chart-gray"
    else if conclusion = some "skipped" then "text-chart-gray"
    else "text-chart-warning"
  else if status = "in_progress" then "text-chart-info"
  else if status = "queued" then "text-chart-warning"
  else "text-chart-gray"

/-- `getStatusIcon(status, conclusion?)`. -/
def getStatusIcon (status : String) (conclusion : Option String := none) : String :=
  if status = "completed" then
    if conclusion = some "success" then "✓"
    else if conclusion = some "failure" then "✗"
    else if conclusion = some "cancelled" then "⊘"
    else if conclusion = some "skipped" then "⊝"
    else "?"
  else if status = "in_progress" then "⟳"
  else if status = "queued" then "⋯"
  else "·"

/-! ## Concrete fixtures used by counterexamples and witnesses -/

/-- A fixed environment: clock at 0, no parseable JSON error bodies,
a constant locale time rendering. -/
def env0 : Env :=
  { nowMs := 0, jsonMessage := fun _ => none, localeTime := fun _ => "T" }

/-- A primary-rate-limit response: 403 with `X-RateLimit-Remaining: 0`. -/
def resp403 : HttpResponse :=
  { status := 403, statusText := "Forbidden"
    headers := [("X-RateLimit-Remaining", "0"), ("X-RateLimit-Reset", "1000")]
    body := "" }

/-- A secondary-rate-limit response with a `Retry-After` header. -/
def resp429 : HttpResponse :=
  { status := 429, statusText := "Too Many Requests"
    headers := [("Retry-After", "2")], body := "" }

/-- A secondary-rate-limit response without a `Retry-After` header. -/
def resp429b : HttpResponse :=
  { status := 429, statusText := "Too Many Requests", headers := [], body := "" }

/-- A plain success response. -/
def resp200 : HttpResponse :=
  { status := 200, statusText := "OK", headers := [], body := "payload" }

/-- A 404 response. -/
def resp404 : HttpResponse :=
  { status := 404, statusText := "Not Found", headers := [], body := "nf" }

/-- A 202 contributors-pending response. -/
def resp202 : HttpResponse :=
  { status := 202, statusText := "Accepted", headers := [], body := "ignored" }

/-- A success response whose `Link` header advertises a next page. -/
def respNext : HttpResponse :=
  { status := 200, statusText := "OK"
    headers := [("Link", "<https://api.github.com/repositories/1/commits?page=2>; rel=\"next\"")]
    body := "b" }

/-! ## Theorems

First two reusable facts about a `fetchWithRetry` call that is decided
entirely by its first attempt. -/

/-- If the first attempt's response makes the try block return, the whole
call succeeds after exactly one fetch and no sleep. -/
theorem fetchWithRetry_ret (env : Env) (script : Nat → FetchOutcome) (retries : Nat)
    (delay : Int) (r r2 : HttpResponse) (h0 : script 0 = .resp r)
    (ht : tryBody env r 0 retries delay = .ret r2) :
    fetchWithRetry env script retries delay =
      (.ok r2,
        { attempts := 1, sleeps := []
          rl := (updateRateLimitInfo none r.headers).1
          notifs := (updateRateLimitInfo none r.headers).2 }) := by
  simp only [fetchWithRetry, fetchGo, h0, ht, List.nil_append, Nat.zero_add]

/-- If the first attempt's response makes the try block throw an error
the catch block rethrows, the whole call fails after exactly one fetch
and no sleep. -/
theorem fetchWithRetry_throw1 (env : Env) (script : Nat → FetchOutcome) (retries : Nat)
    (delay : Int) (r : HttpResponse) (e e2 : JsError) (h0 : script 0 = .resp r)
    (ht : tryBody env r 0 retries delay = .thrown e)
    (hc : catchBody e 0 retries delay = .rethrow e2) :
    fetchWithRetry env script retries delay =
      (.error e2,
        { attempts := 1, sleeps := []
          rl := (updateRateLimitInfo none r.headers).1
          notifs := (updateRateLimitInfo none r.headers).2 }) := by
  simp only [fetchWithRetry, fetchGo, h0, ht, hc, List.nil_append, Nat.zero_add]

/-- C7: `parseRepoInput` maps `owner/repo`, the github.com URL form, the
`.git` form, the `/tree/main` form and the whitespace-padded form all to
`{ owner, repo }`, and maps `"invalid"`, `""` and `"owner"` to `null`. -/
theorem claimC7 :
    parseRepoInput "owner/repo" = some ("owner", "repo") ∧
    parseRepoInput "https://github.com/owner/repo" = some ("owner", "repo") ∧
    parseRepoInput "https://github.com/owner/repo.git" = some ("owner", "repo") ∧
    parseRepoInput "https://github.com/owner/repo/tree/main" = some ("owner", "repo") ∧
    parseRepoInput "  owner/repo  " = some ("owner", "repo") ∧
    parseRepoInput "invalid" = none ∧
    parseRepoInput "" = none ∧
    parseRepoInput "owner" = none := by
  refine ⟨?_, ?_, ?_, ?_, ?_, ?_, ?_, ?_⟩ <;> decide

/-- `toString` agrees on a natural number and its integer cast. -/
theorem toString_intCast (n : Nat) : toString (n : Int) = toString n := rfl

/-- Dividing the integer cast of a natural number by a positive numeral
is the cast of the natural division. -/
theorem fdiv_natCast (s d : Nat) (hd : 0 < d) :
    Int.fdiv (s : Int) (d : Int) = ((s / d : Nat) : Int) := by
  rw [Int.fdiv_eq_tdiv (by positivity) (by positivity)]
  exact (Int.ofNat_tdiv s d).symm

/-- C8: for a timestamp whose age is a non-negative whole number of
seconds `s`, `formatTimeAgo` returns "just now" for `s < 60`, `"Nm ago"`
with `N = s / 60` for `60 ≤ s < 3600`, `"Nh ago"` with `N = s / 3600` for
`3600 ≤ s < 86400`, `"Nd ago"` with `N = s / 86400` for
`86400 ≤ s < 2592000`, and the locale date string otherwise; every
boundary is a strict `<`, so exactly 60 seconds gives "1m ago". -/
theorem claimC8 (localeDate : Int → String) (nowMs dateMs : Int) (s : Nat)
    (h : nowMs - dateMs = 1000 * s) :
    (s < 60 → formatTimeAgo localeDate nowMs dateMs = "just now") ∧
    (60 ≤ s → s < 3600 →
      formatTimeAgo localeDate nowMs dateMs = toString (s / 60) ++ "m ago") ∧
    (3600 ≤ s → s < 86400 →
      formatTimeAgo localeDate nowMs dateMs = toString (s / 3600) ++ "h ago") ∧
    (86400 ≤ s → s < 2592000 →
      formatTimeAgo localeDate nowMs dateMs = toString (s / 86400) ++ "d ago") ∧
    (2592000 ≤ s → formatTimeAgo localeDate nowMs dateMs = localeDate dateMs) := by
  have hdiff : Int.fdiv (nowMs - dateMs) 1000 = (s : Int) := by
    rw [h]; exact Int.mul_fdiv_cancel_left _ (by norm_num)
  have hd60 : Int.fdiv (s : Int) 60 = ((s / 60 : Nat) : Int) := by
    rw [show (60 : Int) = ((60 : Nat) : Int) from by norm_cast]
    exact fdiv_natCast s 60 (by norm_num)
  have hd3600 : Int.fdiv (s : Int) 3600 = ((s / 3600 : Nat) : Int) := by
    rw [show (3600 : Int) = ((3600 : Nat) : Int) from by norm_cast]
    exact fdiv_natCast s 3600 (by norm_num)
  have hd86400 : Int.fdiv (s : Int) 86400 = ((s / 86400 : Nat) : Int) := by
    rw [show (86400 : Int) = ((86400 : Nat) : Int) from by norm_cast]
    exact fdiv_natCast s 86400 (by norm_num)
  refine ⟨fun h1 => ?_, fun h1 h2 => ?_, fun h1 h2 => ?_, fun h1 h2 => ?_, fun h1 => ?_⟩
  · simp only [formatTimeAgo, hdiff]
    rw [if_pos (by omega)]
  · simp only [formatTimeAgo, hdiff]
    rw [if_neg (by omega), if_pos (by omega), hd60, toString_intCast]
  · simp only [formatTimeAgo, hdiff]
    rw [if_neg (by omega), if_neg (by omega), if_pos (by omega), hd3600, toString_intCast]
  · simp only [formatTimeAgo, hdiff]
    rw [if_neg (by omega), if_neg (by omega), if_neg (by omega), if_pos (by omega),
      hd86400, toString_intCast]
  · simp only [formatTimeAgo, hdiff]
    rw [if_neg (by omega), if_neg (by omega), if_neg (by omega), if_neg (by omega)]

/-- C9: `getStatusColor` and `getStatusIcon` realize the exhaustive
`(status, conclusion)` lookup table: completed/success, completed/failure,
completed/cancelled, completed/skipped, completed with any other (or
absent) conclusion, in_progress, queued, and the fallback bucket for any
unrecognized status. -/
theorem claimC9 :
    (getStatusColor "completed" (some "success") = "text-chart-success" ∧
      getStatusIcon "completed" (some "success") = "✓") ∧
    (getStatusColor "completed" (some "failure") = "text-chart-danger" ∧
      getStatusIcon "completed" (some "failure") = "✗") ∧
    (getStatusColor "completed" (some "cancelled") = "text-chart-gray" ∧
      getStatusIcon "completed" (some "cancelled") = "⊘") ∧
    (getStatusColor "completed" (some "skipped") = "text-chart-gray" ∧
      getStatusIcon "completed" (some "skipped") = "⊝") ∧
    (∀ c : Option String, c ≠ some "success" → c ≠ some "failure" →
      c ≠ some "cancelled" → c ≠ some "skipped" →
      getStatusColor "completed" c = "text-chart-warning" ∧
      getStatusIcon "completed" c = "?") ∧
    (∀ c : Option String, getStatusColor "in_progress" c = "text-chart-info" ∧
      getStatusIcon "in_progress" c = "⟳") ∧
    (∀ c : Option String, getStatusColor "queued" c = "text-chart-warning" ∧
      getStatusIcon "queued" c = "⋯") ∧
    (∀ (st : String) (c : Option String), st ≠ "completed" → st ≠ "in_progress" →
      st ≠ "queued" → getStatusColor st c = "text-chart-gray" ∧
      getStatusIcon st c = "·") := by
  refine ⟨⟨rfl, rfl⟩, ⟨rfl, rfl⟩, ⟨rfl, rfl⟩, ⟨rfl, rfl⟩, ?_, ?_, ?_, ?_⟩
  · intro c h1 h2 h3 h4
    constructor <;> simp [getStatusColor, getStatusIcon, h1, h2, h3, h4]
  · intro c; constructor <;> rfl
  · intro c; constructor <;> rfl
  · intro st c h1 h2 h3
    constructor <;> simp [getStatusColor, getStatusIcon, h1, h2, h3]

/-- Witness for C9, at conclusion `other` and status `unknown`. -/
theorem claimC9_witness :
    getStatusColor "completed" (some "other") = "text-chart-warning" ∧
    getStatusIcon "completed" (some "other") = "?" ∧
    getStatusColor "unknown" none = "text-chart-gray" ∧
    getStatusIcon "unknown" none = "·" := by
  have h := claimC9
  have h5 := h.2.2.2.2.1 (some "other") (by decide) (by decide) (by decide) (by decide)
  have h8 := h.2.2.2.2.2.2.2 "unknown" none (by decide) (by decide) (by decide)
  exact ⟨h5.1, h5.2, h8.1, h8.2⟩

/-- Witness for C8, at exactly 60 seconds (the "1m ago" boundary) and at
59 seconds. -/
theorem claimC8_witness :
    formatTimeAgo (fun _ => "LOCALE") 60000 0 = "1m ago" ∧
    formatTimeAgo (fun _ => "LOCALE") 59000 0 = "just now" := by
  have h60 := claimC8 (fun _ => "LOCALE") 60000 0 60 (by norm_num)
  have h59 := claimC8 (fun _ => "LOCALE") 59000 0 59 (by norm_num)
  constructor
  · rw [h60.2.1 (by norm_num) (by norm_num)]; decide
  · exact h59.1 (by norm_num)

/-- C4: a 4xx response other than 403-with-remaining-0 and other than 429
is raised on the first occurrence — exactly one fetch, no sleep, no
rate-limited flag — with the message from the JSON body's truthy
`message` field when the body parses, else the generic
`GitHub API error: <status> <statusText>` composition. -/
theorem claimC4 (env : Env) (script : Nat → FetchOutcome) (st : Nat) (stx : String)
    (hdrs : List (String × String)) (bd : String)
    (h0 : script 0 = .resp ⟨st, stx, hdrs, bd⟩)
    (h4 : 400 ≤ st) (h5 : st < 500) (h429 : st ≠ 429)
    (h403 : ¬(st = 403 ∧ headersGet hdrs "X-RateLimit-Remaining" = some "0")) :
    (fetchWithRetry env script).1 =
      .error (.gitHubAPIError
        ((env.jsonMessage bd).getD ("GitHub API error: " ++ toString st ++ " " ++ stx))
        st false none) ∧
    (fetchWithRetry env script).2.attempts = 1 ∧
    (fetchWithRetry env script).2.sleeps = [] := by
  have ht : tryBody env ⟨st, stx, hdrs, bd⟩ 0 MAX_RETRIES INITIAL_RETRY_DELAY =
      .thrown (.gitHubAPIError
        ((env.jsonMessage bd).getD ("GitHub API error: " ++ toString st ++ " " ++ stx))
        st false none) := by
    simp only [tryBody]
    rw [if_neg h403, if_neg h429, if_neg (by rintro ⟨h', _⟩; omega),
      if_pos (by omega)]
  have hc : catchBody
      (.gitHubAPIError
        ((env.jsonMessage bd).getD ("GitHub API error: " ++ toString st ++ " " ++ stx))
        st false none) 0 MAX_RETRIES INITIAL_RETRY_DELAY =
      .rethrow (.gitHubAPIError
        ((env.jsonMessage bd).getD ("GitHub API error: " ++ toString st ++ " " ++ stx))
        st false none) := by
    simp only [catchBody]
    rw [if_pos ⟨h4, h5, trivial⟩]
  rw [fetchWithRetry_throw1 env script MAX_RETRIES INITIAL_RETRY_DELAY _ _ _ h0 ht hc]
  exact ⟨rfl, rfl, rfl⟩

/-- Witness for C4, at a single 404 with an unparseable body. -/
theorem claimC4_witness :
    (fetchWithRetry env0 (fun _ => .resp resp404)).1 =
      .error (.gitHubAPIError "GitHub API error: 404 Not Found" 404 false none) ∧
    (fetchWithRetry env0 (fun _ => .resp resp404)).2.attempts = 1 := by
  have h := claimC4 env0 (fun _ => .resp resp404) 404 "Not Found" [] "nf" rfl
    (by norm_num) (by norm_num) (by norm_num) (by rintro ⟨h', _⟩; omega)
  exact ⟨h.1, h.2.1⟩

/-- C5: a 202 response to the contributors accessor yields the empty
list — no error is thrown — after a single fetch. -/
theorem claimC5 {α : Type} (env : Env) (script : Nat → FetchOutcome)
    (decode : String → List α) (stx : String) (hdrs : List (String × String)) (bd : String)
    (h0 : script 0 = .resp ⟨202, stx, hdrs, bd⟩) :
    (getContributors env script decode).1 = .ok [] ∧
    (getContributors env script decode).2.attempts = 1 := by
  have ht : tryBody env ⟨202, stx, hdrs, bd⟩ 0 MAX_RETRIES INITIAL_RETRY_DELAY =
      .ret ⟨202, stx, hdrs, bd⟩ := by
    simp only [tryBody]
    rw [if_neg (by rintro ⟨h', _⟩; omega), if_neg (by omega),
      if_neg (by rintro ⟨h', _⟩; omega), if_neg (by simp)]
  rw [getContributors, fetchWithRetry_ret env script MAX_RETRIES INITIAL_RETRY_DELAY
    _ _ h0 ht]
  exact ⟨rfl, rfl⟩

/-- Witness for C5: a concrete 202 response. -/
theorem claimC5_witness :
    (getContributors env0 (fun _ => .resp resp202) (fun s => [s])).1 = .ok [] := by
  exact (claimC5 env0 (fun _ => .resp resp202) (fun s => [s]) "Accepted" [] "ignored" rfl).1

/-- One step of the `Link`-header fold can only set `next` when the part
carries a `next` relation. -/
theorem linkStep_next (links : LinkRels) (part : List Char) :
    (linkStep links part).next.isSome = (links.next.isSome || partHasRel "next" part) := by
  unfold linkStep partHasRel
  cases hm : matchLinkPart part with
  | none => simp
  | some m =>
    obtain ⟨url, rel⟩ := m
    by_cases h : rel = "next"
    · simp [h]
    · simp only [h, if_false, decide_eq_true_eq]
      split_ifs <;> simp [h]

/-- Folding `linkStep` over the parts sets `next` exactly when some part
carries a `next` relation. -/
theorem foldl_linkStep_next (parts : List (List Char)) : ∀ acc : LinkRels,
    ((parts.foldl linkStep acc).next).isSome =
      (acc.next.isSome || parts.any (partHasRel "next")) := by
  induction parts with
  | nil => intro acc; simp
  | cons p ps ih =>
    intro acc
    simp only [List.foldl_cons, List.any_cons, ih, linkStep_next, Bool.or_assoc]

/-- `parseLinkHeader` records a `next` relation exactly when the header
contains one. -/
theorem parseLinkHeader_next_isSome (lh : Option String) :
    (parseLinkHeader lh).next.isSome = linkContainsRel lh "next" := by
  cases lh with
  | none => rfl
  | some s =>
    by_cases hs : s = ""
    · subst hs; rfl
    · unfold parseLinkHeader linkContainsRel
      rw [if_neg (by simp [truthy, hs])]
      rw [foldl_linkStep_next]
      rfl

/-- C6: a paginated accessor's `hasNextPage` is true exactly when the
response's `Link` header contains a `rel="next"` relation, and
`hasPrevPage` is true exactly when the requested page is `> 1`,
independent of any `rel="prev"` relation; concretely, a page-1 response
with a next link yields `(hasNextPage, hasPrevPage) = (true, false)` and
the same response on page 2 yields `hasPrevPage = true`. -/
theorem claimC6 {α : Type} (env : Env) (script : Nat → FetchOutcome)
    (decode : String → List α) (page perPage : Nat) (st : Nat) (stx : String)
    (hdrs : List (String × String)) (bd : String)
    (h0 : script 0 = .resp ⟨st, stx, hdrs, bd⟩) (h2a : 200 ≤ st) (h2b : st < 300) :
    (∃ pr : PaginatedResponse α,
      (getCommitsPaginated env script decode page perPage).1 = .ok pr ∧
      pr.pagination.hasNextPage = linkContainsRel (headersGet hdrs "Link") "next" ∧
      (pr.pagination.hasPrevPage = true ↔ 1 < page) ∧
      pr.pagination.page = page ∧ pr.pagination.perPage = perPage) ∧
    (getCommitsPaginated env0 (fun _ => .resp respNext) (fun s => [s]) 1 20).1 =
      .ok { data := ["b"]
            pagination := { page := 1, perPage := 20, totalCount := none
                            hasNextPage := true, hasPrevPage := false } } ∧
    (getCommitsPaginated env0 (fun _ => .resp respNext) (fun s => [s]) 2 20).1 =
      .ok { data := ["b"]
            pagination := { page := 2, perPage := 20, totalCount := none
                            hasNextPage := true, hasPrevPage := true } } := by
  refine ⟨?_, by rfl, by rfl⟩
  have ht : tryBody env ⟨st, stx, hdrs, bd⟩ 0 MAX_RETRIES INITIAL_RETRY_DELAY =
      .ret ⟨st, stx, hdrs, bd⟩ := by
    simp only [tryBody]
    rw [if_neg (by rintro ⟨h', _⟩; omega), if_neg (by omega),
      if_neg (by rintro ⟨h', _⟩; omega), if_neg (not_not_intro ⟨h2a, h2b⟩)]
  rw [getCommitsPaginated, fetchWithRetry_ret env script MAX_RETRIES INITIAL_RETRY_DELAY
    _ _ h0 ht]
  refine ⟨_, rfl, ?_, ?_, rfl, rfl⟩
  · exact parseLinkHeader_next_isSome (headersGet hdrs "Link")
  · exact decide_eq_true_iff

/-- Witness for C6: the concrete page-1 case of the universal part. -/
theorem claimC6_witness :
    ∃ pr : PaginatedResponse String,
      (getCommitsPaginated env0 (fun _ => .resp respNext) (fun s => [s]) 1 20).1 =
        .ok pr ∧
      pr.pagination.hasNextPage =
        linkContainsRel
          (headersGet [("Link",
            "<https://api.github.com/repositories/1/commits?page=2>; rel=\"next\"")]
            "Link") "next" ∧
      (pr.pagination.hasPrevPage = true ↔ 1 < 1) ∧
      pr.pagination.page = 1 ∧ pr.pagination.perPage = 20 := by
  exact (claimC6 env0 (fun _ => .resp respNext) (fun s => [s]) 1 20 200 "OK"
    [("Link", "<https://api.github.com/repositories/1/commits?page=2>; rel=\"next\"")]
    "b" rfl (by norm_num) (by norm_num)).1

/-- C2 is false on the code: with 10 commits and the file fetch throwing
on the 3rd, `getRecentCommitsWithFiles` returns 5 entries, not 10 —
commits 6–10 are not included at all. -/
theorem claimC2_counterexample :
    (getRecentCommitsWithFiles [0, 1, 2, 3, 4, 5, 6, 7, 8, 9]
      (fun c => if c = 2 then .error (.genericError "boom")
                else .ok [c])).length = 5 ∧
    (getRecentCommitsWithFiles [0, 1, 2, 3, 4, 5, 6, 7, 8, 9]
      (fun c => if c = 2 then .error (.genericError "boom")
                else .ok [c])).length ≠ 10 := by
  exact ⟨rfl, by decide⟩

/-- C2 amended: with 10 commits and the file fetch throwing on the 3rd,
the result is the first 5 commits in order — the 3rd paired with an empty
file list, the others with their fetched files — and commits 6–10 are
absent; no exception escapes the loop. -/
theorem claimC2_amended {α β : Type} (c0 c1 c2 c3 c4 c5 c6 c7 c8 c9 : α)
    (fetchFiles : α → Except JsError (List β)) (e : JsError)
    (fs0 fs1 fs3 fs4 : List β)
    (h0 : fetchFiles c0 = .ok fs0) (h1 : fetchFiles c1 = .ok fs1)
    (h2 : fetchFiles c2 = .error e)
    (h3 : fetchFiles c3 = .ok fs3) (h4 : fetchFiles c4 = .ok fs4) :
    getRecentCommitsWithFiles [c0, c1, c2, c3, c4, c5, c6, c7, c8, c9] fetchFiles =
      [(c0, fs0), (c1, fs1), (c2, []), (c3, fs3), (c4, fs4)] := by
  simp [getRecentCommitsWithFiles, h0, h1, h2, h3, h4]

/-- Witness for the amended C2, on concrete commits and files. -/
theorem claimC2_witness :
    getRecentCommitsWithFiles [0, 1, 2, 3, 4, 5, 6, 7, 8, 9]
      (fun c => if c = 2 then .error (.genericError "boom") else .ok [c]) =
      [(0, [0]), (1, [1]), (2, ([] : List Nat)), (3, [3]), (4, [4])] := by
  exact claimC2_amended 0 1 2 3 4 5 6 7 8 9 _ (.genericError "boom")
    [0] [1] [3] [4] rfl rfl rfl rfl rfl

/-- C10 is false as stated: the three `X-RateLimit-*` headers can all be
present while one has the empty value; the guard uses JS truthiness, so
nothing is stored and nobody is notified. -/
theorem claimC10_counterexample :
    (headersGet [("X-RateLimit-Limit", ""), ("X-RateLimit-Remaining", "5"),
      ("X-RateLimit-Reset", "100")] "X-RateLimit-Limit").isSome = true ∧
    (headersGet [("X-RateLimit-Limit", ""), ("X-RateLimit-Remaining", "5"),
      ("X-RateLimit-Reset", "100")] "X-RateLimit-Remaining").isSome = true ∧
    (headersGet [("X-RateLimit-Limit", ""), ("X-RateLimit-Remaining", "5"),
      ("X-RateLimit-Reset", "100")] "X-RateLimit-Reset").isSome = true ∧
    updateRateLimitInfo none [("X-RateLimit-Limit", ""), ("X-RateLimit-Remaining", "5"),
      ("X-RateLimit-Reset", "100")] = (none, []) := by
  exact ⟨rfl, rfl, rfl, rfl⟩

/-- C10 amended: the snapshot is overwritten and the subscribers notified
exactly once when the three required headers are present *with non-empty
(truthy) values* — `reset` parsed from unix seconds into a millisecond
timestamp, `used` defaulting to 0 when its header is absent — and when
one of the three is missing or empty the previous snapshot is kept and no
notification is published. -/
theorem claimC10_amended (rl : Option RateLimitInfo) (hs : List (String × String)) :
    (∀ ls rs ss, headersGet hs "X-RateLimit-Limit" = some ls → ls ≠ "" →
      headersGet hs "X-RateLimit-Remaining" = some rs → rs ≠ "" →
      headersGet hs "X-RateLimit-Reset" = some ss → ss ≠ "" →
      ∃ info : RateLimitInfo,
        updateRateLimitInfo rl hs = (some info, [info]) ∧
        info.limit = parseIntJS ls ∧ info.remaining = parseIntJS rs ∧
        info.reset = (parseIntJS ss).map (fun v => v * 1000) ∧
        (headersGet hs "X-RateLimit-Used" = none → info.used = some 0)) ∧
    (¬ (truthy (headersGet hs "X-RateLimit-Limit") = true ∧
        truthy (headersGet hs "X-RateLimit-Remaining") = true ∧
        truthy (headersGet hs "X-RateLimit-Reset") = true) →
      updateRateLimitInfo rl hs = (rl, [])) := by
  constructor
  · intro ls rs ss h1 hn1 h2 hn2 h3 hn3
    unfold updateRateLimitInfo
    rw [if_pos (by simp [h1, h2, h3, truthy, hn1, hn2, hn3])]
    refine ⟨_, rfl, ?_, ?_, ?_, ?_⟩
    · simp [h1]
    · simp [h2]
    · simp [h3]
    · intro hu; simp [hu, truthy]
  · intro h
    unfold updateRateLimitInfo
    rw [if_neg (by simpa [Bool.and_eq_true] using h)]

/-- Witness for the amended C10: the spec's own header example. -/
theorem claimC10_witness :
    ∃ info : RateLimitInfo,
      updateRateLimitInfo none
        [("X-RateLimit-Limit", "60"), ("X-RateLimit-Remaining", "59"),
         ("X-RateLimit-Reset", "100"), ("X-RateLimit-Used", "1")] =
        (some info, [info]) ∧
      info.limit = some 60 ∧ info.remaining = some 59 ∧ info.reset = some 100000 := by
  obtain ⟨info, heq, hl, hr, hreset, _⟩ :=
    (claimC10_amended none
      [("X-RateLimit-Limit", "60"), ("X-RateLimit-Remaining", "59"),
       ("X-RateLimit-Reset", "100"), ("X-RateLimit-Used", "1")]).1
      "60" "59" "100" rfl (by decide) rfl (by decide) rfl (by decide)
  exact ⟨info, heq, hl.trans (by decide), hr.trans (by decide), hreset.trans (by decide)⟩

/-- When every attempt's response makes the try block throw the same
rate-limited 403 error, the loop re-fetches without sleeping until the
attempts are exhausted, then surfaces that error. -/
theorem fetchGo_const403 (env : Env) (r : HttpResponse) (m : String) (ra : Option JSNum)
    (retries : Nat) (delay : Int)
    (ht : ∀ a, tryBody env r a retries delay = .thrown (.gitHubAPIError m 403 true ra)) :
    ∀ fuel, ∀ (attempt : Nat) (el : Option JsError) (log : FetchLog),
      attempt + fuel = retries + 1 → 1 ≤ fuel →
      (fetchGo env (fun _ => .resp r) retries delay fuel attempt el log).1 =
        .error (.gitHubAPIError m 403 true ra) ∧
      (fetchGo env (fun _ => .resp r) retries delay fuel attempt el log).2.attempts =
        log.attempts + fuel ∧
      (fetchGo env (fun _ => .resp r) retries delay fuel attempt el log).2.sleeps =
        log.sleeps := by
  intro fuel
  induction fuel with
  | zero => intro attempt el log hsum hf; exact absurd hf (by omega)
  | succ f ih =>
    intro attempt el log hsum hf
    by_cases hat : attempt = retries
    · have hf0 : f = 0 := by omega
      subst hf0
      subst hat
      have hcatch : catchBody (.gitHubAPIError m 403 true ra) attempt attempt delay =
          .rethrow (.gitHubAPIError m 403 true ra) := by
        simp [catchBody]
      simp only [fetchGo, ht attempt, hcatch]
      exact ⟨by simp, by simp, by simp⟩
    · have hcatch : catchBody (.gitHubAPIError m 403 true ra) attempt retries delay =
          .fallthrough := by
        simp [catchBody, hat]
      simp only [fetchGo, ht attempt, hcatch]
      refine ⟨(ih _ _ _ (by omega) (by omega)).1, ?_, ?_⟩
      · rw [(ih _ _ _ (by omega) (by omega)).2.1]; simp; omega
      · rw [(ih _ _ _ (by omega) (by omega)).2.2]

/-- When every attempt before the last makes the try block sleep and
continue with wait `w attempt`, and the last throws the rate-limited 429
error with wait `w retries`, the loop performs every attempt, sleeping
`w attempt` between consecutive ones, and surfaces that error. -/
theorem fetchGo_const429 (env : Env) (r : HttpResponse) (m : String) (w : Nat → JSNum)
    (retries : Nat) (delay : Int)
    (ht : ∀ a, a < retries → tryBody env r a retries delay = .sleepContinue (w a))
    (htr : tryBody env r retries retries delay =
      .thrown (.gitHubAPIError m 429 true (some (w retries)))) :
    ∀ fuel, ∀ (attempt : Nat) (el : Option JsError) (log : FetchLog),
      attempt + fuel = retries + 1 → 1 ≤ fuel →
      (fetchGo env (fun _ => .resp r) retries delay fuel attempt el log).1 =
        .error (.gitHubAPIError m 429 true (some (w retries))) ∧
      (fetchGo env (fun _ => .resp r) retries delay fuel attempt el log).2.attempts =
        log.attempts + fuel ∧
      (fetchGo env (fun _ => .resp r) retries delay fuel attempt el log).2.sleeps =
        log.sleeps ++ backoffSleeps w attempt (fuel - 1) := by
  intro fuel
  induction fuel with
  | zero => intro attempt el log hsum hf; exact absurd hf (by omega)
  | succ f ih =>
    intro attempt el log hsum hf
    by_cases hat : attempt = retries
    · have hf0 : f = 0 := by omega
      subst hf0
      subst hat
      have hcatch : catchBody (.gitHubAPIError m 429 true (some (w attempt)))
          attempt attempt delay =
          .rethrow (.gitHubAPIError m 429 true (some (w attempt))) := by
        simp [catchBody]
      simp only [fetchGo, htr, hcatch]
      exact ⟨by simp, by simp, by simp [backoffSleeps]⟩
    · have hlt : attempt < retries := by omega
      simp only [fetchGo, ht attempt hlt]
      obtain ⟨g, hg⟩ : ∃ g, f = g + 1 := ⟨f - 1, by omega⟩
      refine ⟨(ih _ _ _ (by omega) (by omega)).1, ?_, ?_⟩
      · rw [(ih _ _ _ (by omega) (by omega)).2.1]; simp; omega
      · rw [(ih _ _ _ (by omega) (by omega)).2.2]
        subst hg
        simp [backoffSleeps, List.append_assoc]

/-- C1 is false on the code: with every response a 403 carrying
`X-RateLimit-Remaining: 0`, the thrown rate-limited error is caught by
the loop's catch block — which only rethrows non-rate-limited 4xx
immediately — so the client performs 4 fetches, not 1. -/
theorem claimC1_counterexample :
    (fetchWithRetry env0 (fun _ => .resp resp403)).2.attempts = 4 ∧
    (fetchWithRetry env0 (fun _ => .resp resp403)).2.attempts ≠ 1 ∧
    (fetchWithRetry env0 (fun _ => .resp resp403)).1 =
      .error (.gitHubAPIError "GitHub API rate limit exceeded. Resets at T"
        403 true (some (some 1000000))) := by
  exact ⟨rfl, by decide, rfl⟩

/-- C1 amended: for every request whose attempts all receive a 403 with
`X-RateLimit-Remaining: 0`, the client performs `MAX_RETRIES + 1 = 4`
fetches with no sleeps in between and then raises the API error of the
final attempt, carrying the rate-limited flag and a retry-after equal to
the wait until the reset timestamp. -/
theorem claimC1_amended (env : Env) (stx : String) (hdrs : List (String × String))
    (bd : String) (hrem : headersGet hdrs "X-RateLimit-Remaining" = some "0") :
    (fetchWithRetry env (fun _ => .resp ⟨403, stx, hdrs, bd⟩)).1 =
      .error (.gitHubAPIError
        ("GitHub API rate limit exceeded. Resets at " ++
          env.localeTime (resetDateOf env hdrs))
        403 true
        (some (jsMax0 ((resetDateOf env hdrs).map (fun t => t - env.nowMs))))) ∧
    (fetchWithRetry env (fun _ => .resp ⟨403, stx, hdrs, bd⟩)).2.attempts = 4 ∧
    (fetchWithRetry env (fun _ => .resp ⟨403, stx, hdrs, bd⟩)).2.sleeps = [] := by
  have ht : ∀ a, tryBody env ⟨403, stx, hdrs, bd⟩ a MAX_RETRIES INITIAL_RETRY_DELAY =
      .thrown (.gitHubAPIError
        ("GitHub API rate limit exceeded. Resets at " ++
          env.localeTime (resetDateOf env hdrs))
        403 true
        (some (jsMax0 ((resetDateOf env hdrs).map (fun t => t - env.nowMs))))) := by
    intro a
    simp [tryBody, hrem]
  have h := fetchGo_const403 env ⟨403, stx, hdrs, bd⟩ _ _ MAX_RETRIES
    INITIAL_RETRY_DELAY ht (MAX_RETRIES + 1) 0 none
    { attempts := 0, sleeps := [], rl := none, notifs := [] } rfl (by omega)
  exact ⟨h.1, h.2.1.trans rfl, h.2.2⟩

/-- Witness for the amended C1: the concrete all-403 scenario. -/
theorem claimC1_witness :
    (fetchWithRetry env0 (fun _ => .resp resp403)).2.attempts = 4 ∧
    (fetchWithRetry env0 (fun _ => .resp resp403)).2.sleeps = [] := by
  have h := claimC1_amended env0 "Forbidden"
    [("X-RateLimit-Remaining", "0"), ("X-RateLimit-Reset", "1000")] "" rfl
  exact ⟨h.2.1, h.2.2⟩

/-- C3: with `MAX_RETRIES = 3`, a request whose attempts all receive 429
performs exactly 4 fetches, sleeping between attempts the `Retry-After`
duration when that header is present (non-empty) and
`initialDelay * 2 ^ attempt` otherwise, and then raises the 429 API error
with the rate-limited flag and the wait computed at the final attempt;
and a 429 followed by a 200 succeeds with the 200 response after exactly
2 fetches. -/
theorem claimC3 :
    MAX_RETRIES = 3 ∧
    (∀ (env : Env) (stx : String) (hdrs : List (String × String)) (bd : String)
      (s : String), headersGet hdrs "Retry-After" = some s → s ≠ "" →
      (fetchWithRetry env (fun _ => .resp ⟨429, stx, hdrs, bd⟩)).1 =
        .error (.gitHubAPIError "Too many requests. Please wait before trying again."
          429 true (some ((parseIntJS s).map (fun v => v * 1000)))) ∧
      (fetchWithRetry env (fun _ => .resp ⟨429, stx, hdrs, bd⟩)).2.attempts = 4 ∧
      (fetchWithRetry env (fun _ => .resp ⟨429, stx, hdrs, bd⟩)).2.sleeps =
        [(parseIntJS s).map (fun v => v * 1000), (parseIntJS s).map (fun v => v * 1000),
         (parseIntJS s).map (fun v => v * 1000)]) ∧
    (∀ (env : Env) (stx : String) (hdrs : List (String × String)) (bd : String),
      headersGet hdrs "Retry-After" = none →
      (fetchWithRetry env (fun _ => .resp ⟨429, stx, hdrs, bd⟩)).1 =
        .error (.gitHubAPIError "Too many requests. Please wait before trying again."
          429 true (some (some 8000))) ∧
      (fetchWithRetry env (fun _ => .resp ⟨429, stx, hdrs, bd⟩)).2.attempts = 4 ∧
      (fetchWithRetry env (fun _ => .resp ⟨429, stx, hdrs, bd⟩)).2.sleeps =
        [some 1000, some 2000, some 4000]) ∧
    (∀ (env : Env) (r1 r2 : HttpResponse) (script : Nat → FetchOutcome),
      script 0 = .resp r1 → script 1 = .resp r2 → r1.status = 429 →
      200 ≤ r2.status → r2.status < 300 →
      (fetchWithRetry env script).1 = .ok r2 ∧
      (fetchWithRetry env script).2.attempts = 2) := by
  refine ⟨rfl, ?_, ?_, ?_⟩
  · intro env stx hdrs bd s hra hs
    have ht : ∀ a, a < MAX_RETRIES →
        tryBody env ⟨429, stx, hdrs, bd⟩ a MAX_RETRIES INITIAL_RETRY_DELAY =
        .sleepContinue ((parseIntJS s).map (fun v => v * 1000)) := by
      intro a ha
      simp [tryBody, retryWaitTime, hra, truthy, hs, ha]
    have htr : tryBody env ⟨429, stx, hdrs, bd⟩ MAX_RETRIES MAX_RETRIES
        INITIAL_RETRY_DELAY =
        .thrown (.gitHubAPIError "Too many requests. Please wait before trying again."
          429 true (some ((parseIntJS s).map (fun v => v * 1000)))) := by
      simp [tryBody, retryWaitTime, hra, truthy, hs]
    have h := fetchGo_const429 env ⟨429, stx, hdrs, bd⟩ _
      (fun _ => (parseIntJS s).map (fun v => v * 1000)) MAX_RETRIES
      INITIAL_RETRY_DELAY ht htr (MAX_RETRIES + 1) 0 none
      { attempts := 0, sleeps := [], rl := none, notifs := [] } rfl (by omega)
    exact ⟨h.1, h.2.1.trans rfl, h.2.2.trans rfl⟩
  · intro env stx hdrs bd hra
    have ht : ∀ a, a < MAX_RETRIES →
        tryBody env ⟨429, stx, hdrs, bd⟩ a MAX_RETRIES INITIAL_RETRY_DELAY =
        .sleepContinue (some (INITIAL_RETRY_DELAY * 2 ^ a)) := by
      intro a ha
      simp [tryBody, retryWaitTime, hra, truthy, ha]
    have htr : tryBody env ⟨429, stx, hdrs, bd⟩ MAX_RETRIES MAX_RETRIES
        INITIAL_RETRY_DELAY =
        .thrown (.gitHubAPIError "Too many requests. Please wait before trying again."
          429 true (some (some (INITIAL_RETRY_DELAY * 2 ^ MAX_RETRIES)))) := by
      simp [tryBody, retryWaitTime, hra, truthy]
    have h := fetchGo_const429 env ⟨429, stx, hdrs, bd⟩ _
      (fun a => some (INITIAL_RETRY_DELAY * 2 ^ a)) MAX_RETRIES
      INITIAL_RETRY_DELAY ht htr (MAX_RETRIES + 1) 0 none
      { attempts := 0, sleeps := [], rl := none, notifs := [] } rfl (by omega)
    refine ⟨h.1.trans (by norm_num [INITIAL_RETRY_DELAY, MAX_RETRIES]),
      h.2.1.trans rfl, h.2.2.trans ?_⟩
    norm_num [backoffSleeps, INITIAL_RETRY_DELAY, MAX_RETRIES]
  · intro env r1 r2 script h0 h1 h429 h2a h2b
    have ht0 : tryBody env r1 0 MAX_RETRIES INITIAL_RETRY_DELAY =
        .sleepContinue (retryWaitTime r1.headers INITIAL_RETRY_DELAY 0) := by
      have hn403 : r1.status ≠ 403 := by omega
      simp [tryBody, h429, hn403, MAX_RETRIES]
    have ht1 : tryBody env r2 1 MAX_RETRIES INITIAL_RETRY_DELAY = .ret r2 := by
      have hn403 : r2.status ≠ 403 := by omega
      have hn429 : r2.status ≠ 429 := by omega
      have hn500 : ¬(r2.status ≥ 500) := by omega
      simp [tryBody, hn403, hn429, hn500, h2a, h2b]
    rw [show MAX_RETRIES = 2 + 1 from rfl] at ht0 ht1
    constructor
    · show (fetchGo env script (2 + 1) INITIAL_RETRY_DELAY ((2 + 1) + 1) 0 none
        { attempts := 0, sleeps := [], rl := none, notifs := [] }).1 = .ok r2
      simp only [fetchGo, h0, h1, ht0, ht1]
    · show (fetchGo env script (2 + 1) INITIAL_RETRY_DELAY ((2 + 1) + 1) 0 none
        { attempts := 0, sleeps := [], rl := none, notifs := [] }).2.attempts = 2
      simp only [fetchGo, h0, h1, ht0, ht1]

/-- Witness for C3: concrete all-429 scripts with and without
`Retry-After`, and a concrete 429-then-200 script. -/
theorem claimC3_witness :
    (fetchWithRetry env0 (fun _ => .resp resp429)).2.attempts = 4 ∧
    (fetchWithRetry env0 (fun _ => .resp resp429)).2.sleeps =
      [some 2000, some 2000, some 2000] ∧
    (fetchWithRetry env0 (fun _ => .resp resp429b)).2.sleeps =
      [some 1000, some 2000, some 4000] ∧
    (fetchWithRetry env0 (fun n => if n = 0 then .resp resp429b
      else .resp resp200)).1 = .ok resp200 := by
  have hA := claimC3.2.1 env0 "Too Many Requests" [("Retry-After", "2")] "" "2"
    rfl (by decide)
  have hB := claimC3.2.2.1 env0 "Too Many Requests" [] "" rfl
  have hC := claimC3.2.2.2 env0 resp429b resp200
    (fun n => if n = 0 then .resp resp429b else .resp resp200) rfl rfl rfl
    (by decide) (by decide)
  exact ⟨hA.2.1, hA.2.2.trans (by decide), hB.2.2, hC.1⟩

end GH
